import Mathlib

/-!
Shallow embedding of `src/main.py`, a webhook-driven Telegram customer-support
and moderation bot.

Modelling conventions:
* Python strings are `List Char`; `str.lower()` is `lowerStr` (ASCII-faithful),
  `in` on strings is substring containment, `str.split(sep, maxsplit)` is
  `pySplit`, `str.strip()` is `pyStrip`, `int(...)` is `pyParseInt`
  (returning `none` where Python raises `ValueError`), `str(n)` / f-string
  interpolation of an int is `intToStr`.
* The Supabase tables are an explicit `Store`; the in-memory
  `bot_messages` registry is part of `BotState`.
* Outbound Telegram calls and database writes are recorded in an ordered
  `Effect` trace, so the order of side effects within one update is explicit.
* Transport nondeterminism (success or failure of `sendMessage`, results of
  `getChatMember`) is supplied by oracles: each handler consumes one entry of
  a `List (Option Int)` per `send_message` call (`some messageId` when the
  Telegram API reports ok, `none` on failure), and `Ctx.isAdminRes` is the
  result of the `is_admin` check for the message's chat and sender.
* `asyncio.create_task(... sleep d ...)` is recorded as an
  `Effect.schedule chat msg d` entry (delay in seconds); the body that runs
  when such a timer fires is modelled separately
  (`schedule_message_deletion`, `auto_delete_warning`).
-/

namespace SupportBot

/-- Python strings, modelled as lists of characters. -/
abbrev Str := List Char

/-- Python `str.lower()` (ASCII case folding, which covers the texts the
bot handles). -/
def lowerStr (s : Str) : Str := s.map Char.toLower

/-- Python `needle in haystack` for strings: substring containment. -/
def pyIn (needle haystack : Str) : Bool := decide (needle <:+: haystack)

/-- Split a string at the first occurrence of `sep`, returning the part
before and the part after, or `none` when `sep` does not occur. -/
def splitOnce (sep : Str) : Str → Option (Str × Str)
  | [] => if sep = [] then some ([], []) else none
  | c :: rest =>
    if sep.isPrefixOf (c :: rest) then some ([], List.drop sep.length (c :: rest))
    else (splitOnce sep rest).map (fun p => (c :: p.1, p.2))

/-- Python `s.split(sep, maxsplit)` with an explicit separator. -/
def pySplit (sep : Str) (maxsplit : Nat) (s : Str) : List Str :=
  match maxsplit with
  | 0 => [s]
  | m + 1 =>
    match splitOnce sep s with
    | none => [s]
    | some (a, b) => a :: pySplit sep m b

/-- Python `str.strip()`: remove whitespace from both ends. -/
def pyStrip (s : Str) : Str :=
  ((s.dropWhile Char.isWhitespace).reverse.dropWhile Char.isWhitespace).reverse

/-- Parse a nonempty all-digit string as a natural number. -/
def parseDigits (s : Str) : Option Nat :=
  if s ≠ [] ∧ s.all Char.isDigit then
    some (s.foldl (fun a c => a * 10 + (c.toNat - 48)) 0)
  else none

/-- Python `int(s)` on a string: strip whitespace, optional sign, digits;
`none` models the `ValueError` Python raises on malformed input. -/
def pyParseInt (s : Str) : Option Int :=
  match pyStrip s with
  | '+' :: rest => (parseDigits rest).map Int.ofNat
  | '-' :: rest => (parseDigits rest).map (fun n => -(n : Int))
  | t => (parseDigits t).map Int.ofNat

/-- Python `str(n)` for an integer (also f-string interpolation of an int). -/
def intToStr (n : Int) : Str := (toString n).data

/-- A Telegram user as carried in `message["from"]`: `username`,
`first_name`, `last_name` may be absent (`dict.get` defaults). -/
structure TgUser where
  id : Int
  username : Option Str
  first_name : Option Str
  last_name : Option Str
deriving DecidableEq

/-- Telegram chat types the code distinguishes. -/
inductive ChatType where
  | private_chat
  | group
  | supergroup
  | other
deriving DecidableEq

/-- An inbound message update (`update["message"]`). -/
structure Message where
  text : Str
  chat_type : ChatType
  chat_id : Int
  message_id : Int
  from_user : TgUser
deriving DecidableEq

/-- One row of the `group_settings` table. -/
structure GroupSettings where
  is_closed : Bool
  max_warnings : Int
  mute_duration : Int
  auto_delete_minutes : Int
deriving DecidableEq

/-- The defaults `get_group_settings` returns when the table is empty. -/
def defaultSettings : GroupSettings :=
  { is_closed := false, max_warnings := 3, mute_duration := 60, auto_delete_minutes := 0 }

/-- A partial update dict passed to `update_group_settings` (only the keys
present in the Python dict are `some`). -/
structure SettingsPatch where
  is_closed : Option Bool := none
  max_warnings : Option Int := none
  mute_duration : Option Int := none
  auto_delete_minutes : Option Int := none
deriving DecidableEq

/-- Apply a partial settings dict to an existing row (a SQL `update` touches
only the supplied columns). -/
def applyPatch (p : SettingsPatch) (s : GroupSettings) : GroupSettings :=
  { is_closed := p.is_closed.getD s.is_closed
    max_warnings := p.max_warnings.getD s.max_warnings
    mute_duration := p.mute_duration.getD s.mute_duration
    auto_delete_minutes := p.auto_delete_minutes.getD s.auto_delete_minutes }

/-- One row of the `auto_responses` table. -/
structure AutoResponse where
  trigger : Str
  response : Str
deriving DecidableEq

/-- One row of the `complaints` table. -/
structure Complaint where
  id : Int
  user_id : Int
  username : Str
  message : Str
  status : Str
deriving DecidableEq

/-- One row of the `users` table. -/
structure UserRow where
  user_id : Int
  username : Str
  first_name : Str
  last_name : Str
deriving DecidableEq

/-- The database state (the Supabase tables the bot touches).
`group_settings` is a list of rows because nothing in the schema itself
forbids several rows: keeping it single-row is a behaviour of the code.
`next_complaint_id` / `next_settings_id` model the ids the database assigns
to inserted rows. -/
structure Store where
  users : List UserRow
  complaints : List Complaint
  next_complaint_id : Int
  banned_words : List Str
  auto_responses : List AutoResponse
  warnings : List (Int × Str)
  group_settings : List (Int × GroupSettings)
  next_settings_id : Int
deriving DecidableEq

/-- `Database.add_user`: upsert keyed on `user_id`. -/
def add_user (st : Store) (uid : Int) (username first_name last_name : Str) : Store :=
  let row : UserRow :=
    { user_id := uid, username := username, first_name := first_name, last_name := last_name }
  if st.users.any (fun r => r.user_id = uid) then
    { st with users := st.users.map (fun r => if r.user_id = uid then row else r) }
  else
    { st with users := st.users ++ [row] }

/-- `Database.add_complaint`: insert a row with status `pending`; the
database assigns the id, which the caller reads back from `result.data`. -/
def add_complaint (st : Store) (uid : Int) (message username : Str) : Store × Int :=
  let cid := st.next_complaint_id
  ({ st with
      complaints := st.complaints ++
        [{ id := cid, user_id := uid, username := username, message := message,
           status := "pending".data }]
      next_complaint_id := cid + 1 }, cid)

/-- `Database.get_banned_words`. -/
def get_banned_words (st : Store) : List Str := st.banned_words

/-- `Database.add_banned_word`: inserts `word.lower()`. -/
def add_banned_word (st : Store) (word : Str) : Store :=
  { st with banned_words := st.banned_words ++ [lowerStr word] }

/-- `Database.remove_banned_word`: deletes rows equal to `word.lower()`. -/
def remove_banned_word (st : Store) (word : Str) : Store :=
  { st with banned_words := st.banned_words.filter (fun w => w ≠ lowerStr word) }

/-- `Database.get_auto_responses`. -/
def get_auto_responses (st : Store) : List AutoResponse := st.auto_responses

/-- `Database.add_auto_response`: inserts `trigger.lower()` with the
response verbatim. -/
def add_auto_response (st : Store) (trigger response : Str) : Store :=
  { st with auto_responses := st.auto_responses ++ [⟨lowerStr trigger, response⟩] }

/-- `Database.add_warning`: insert one `user_warnings` row. -/
def add_warning (st : Store) (uid : Int) (reason : Str) : Store :=
  { st with warnings := st.warnings ++ [(uid, reason)] }

/-- `Database.get_user_warnings`: all warning rows of one user. -/
def get_user_warnings (st : Store) (uid : Int) : List (Int × Str) :=
  st.warnings.filter (fun p => p.1 = uid)

/-- `Database.clear_user_warnings`: delete all warning rows of one user. -/
def clear_user_warnings (st : Store) (uid : Int) : Store :=
  { st with warnings := st.warnings.filter (fun p => p.1 ≠ uid) }

/-- `Database.get_group_settings`: `select * limit 1`; returns the defaults
when the table is empty, and does not write anything. -/
def get_group_settings (st : Store) : GroupSettings :=
  match st.group_settings.head? with
  | some r => r.2
  | none => defaultSettings

/-- `Database.update_group_settings`: if a row exists (`select id limit 1`),
update that row; otherwise insert a new one. -/
def update_group_settings (st : Store) (p : SettingsPatch) : Store :=
  match st.group_settings.head? with
  | some r =>
    { st with
        group_settings :=
          st.group_settings.map (fun q => if q.1 = r.1 then (q.1, applyPatch p q.2) else q) }
  | none =>
    { st with
        group_settings := st.group_settings ++ [(st.next_settings_id, applyPatch p defaultSettings)]
        next_settings_id := st.next_settings_id + 1 }

/-- Apostrophe character, used inside message-text constants. -/
def sq : Char := Char.ofNat 39

/-- Observable side effects of one update, in program order: outbound
Telegram calls, timer creations, and database writes. -/
inductive Effect where
  | deleteMsg (chatId msgId : Int)
  | send (chatId : Int) (text : Str) (replyTo : Option Int)
  | restrict (chatId userId untilEpoch : Int)
  | schedule (chatId msgId : Int) (delaySeconds : Int)
  | dbUpsertUser (uid : Int) (username first_name last_name : Str)
  | dbAddComplaint (uid : Int) (message username : Str)
  | dbAddBannedWord (word : Str)
  | dbRemoveBannedWord (word : Str)
  | dbAddAutoResponse (trigger response : Str)
  | dbAddWarning (uid : Int) (reason : Str)
  | dbClearWarnings (uid : Int)
  | dbUpdateSettings (p : SettingsPatch)
deriving DecidableEq

/-- Is this effect an outbound `sendMessage` call? -/
def Effect.isSend : Effect → Bool
  | .send _ _ _ => true
  | _ => false

/-- The `sendMessage` calls of a trace, in order. -/
def sendsOf (effs : List Effect) : List Effect := effs.filter Effect.isSend

/-- The state owned by the process: the database plus the in-memory
`bot_messages` registry (chat id, message id). -/
structure BotState where
  store : Store
  registry : List (Int × Int)
deriving DecidableEq

/-- Environment and oracle values for one update: the configured admin id
and group id, the current time (epoch seconds), the result of the
`is_admin` transport check for this message's chat and sender, and whether
the complaint insert succeeds. -/
structure Ctx where
  adminId : Int
  groupId : Option Str
  now : Int
  isAdminRes : Bool
  complaintOk : Bool

/-- Consume one entry of the send-result oracle (an exhausted oracle means
the transport call failed, i.e. results in `none`). -/
def takeSend : List (Option Int) → Option Int × List (Option Int)
  | [] => (none, [])
  | r :: rest => (r, rest)

/-- `TelegramBot.track_bot_message`: read `auto_delete_minutes`; when
positive, record the message and create a deletion timer for
`minutes * 60` seconds; otherwise do nothing. -/
def track_bot_message (st : BotState) (chatId msgId : Int) : BotState × List Effect :=
  if (get_group_settings st.store).auto_delete_minutes > 0 then
    ({ st with registry := st.registry ++ [(chatId, msgId)] },
     [Effect.schedule chatId msgId ((get_group_settings st.store).auto_delete_minutes * 60)])
  else (st, [])

/-- `TelegramBot.send_message`: issue the API call; when it reports ok
(oracle `some messageId`), track the sent message for auto-delete. -/
def send_message (st : BotState) (sendRes : Option Int) (chatId : Int) (text : Str)
    (replyTo : Option Int) : BotState × List Effect :=
  match sendRes with
  | none => (st, [Effect.send chatId text replyTo])
  | some mid =>
    let (st1, effs) := track_bot_message st chatId mid
    (st1, Effect.send chatId text replyTo :: effs)

/-- The body of `TelegramBot.schedule_message_deletion` after its sleep
fires: call `deleteMessage` once and drop the record from the registry.
`deleteOk` is the transport result of that delete call; the code ignores
it (`send_request` swallows failures), so it affects nothing. -/
def schedule_message_deletion (st : BotState) (deleteOk : Bool) (chatId msgId : Int) :
    BotState × List Effect :=
  ({ st with registry := st.registry.filter (fun p => ¬(p.1 = chatId ∧ p.2 = msgId)) },
   [Effect.deleteMsg chatId msgId])

/-- The body of `TelegramBot.auto_delete_warning` after its fixed 5-second
sleep: one delete call, no registry bookkeeping. -/
def auto_delete_warning (chatId msgId : Int) : List Effect :=
  [Effect.deleteMsg chatId msgId]

/-- `user.get("username", user.get("first_name", "User"))`. -/
def displayName (u : TgUser) : Str := u.username.getD (u.first_name.getD "User".data)

/-- Reason recorded for each banned-word warning. -/
def strUsedBannedWord : Str := "Used banned word".data

/-- Mute announcement text. -/
def muteText (u : TgUser) (muteDuration : Int) : Str :=
  "🔇 @".data ++ displayName u ++ " has been muted for ".data ++ intToStr muteDuration ++
    " minutes due to repeated violations.".data

/-- Warning announcement text ("Warning k/maxWarnings"). -/
def warnText (u : TgUser) (count maxWarnings : Int) : Str :=
  "⚠️ @".data ++ displayName u ++ ", please avoid using banned words. Warning ".data ++
    intToStr count ++ "/".data ++ intToStr maxWarnings

/-- `TelegramBot.handle_banned_word`: delete the message, record a warning,
read back the count, then either mute-announce-clear or announce the
count. -/
def handle_banned_word (ctx : Ctx) (st : BotState) (sends : List (Option Int)) (msg : Message) :
    BotState × List Effect :=
  let u := msg.from_user
  let chat := msg.chat_id
  let st1 : BotState := { st with store := add_warning st.store u.id strUsedBannedWord }
  let count : Int := (get_user_warnings st1.store u.id).length
  let s := get_group_settings st1.store
  if s.max_warnings ≤ count then
    let muteUntil := ctx.now + s.mute_duration * 60
    let st2 := (send_message st1 (takeSend sends).1 chat (muteText u s.mute_duration) none).1
    let e := (send_message st1 (takeSend sends).1 chat (muteText u s.mute_duration) none).2
    let st3 : BotState := { st2 with store := clear_user_warnings st2.store u.id }
    (st3, Effect.deleteMsg chat msg.message_id :: Effect.dbAddWarning u.id strUsedBannedWord ::
      Effect.restrict chat u.id muteUntil :: (e ++ [Effect.dbClearWarnings u.id]))
  else
    let st2 := (send_message st1 (takeSend sends).1 chat (warnText u count s.max_warnings) none).1
    let e := (send_message st1 (takeSend sends).1 chat (warnText u count s.max_warnings) none).2
    (st2, Effect.deleteMsg chat msg.message_id :: Effect.dbAddWarning u.id strUsedBannedWord :: e)

/-- `TelegramBot.check_banned_words`: true when any stored word occurs in
the lowercased text (the loop returns on the first hit). -/
def check_banned_words (st : Store) (text : Str) : Bool :=
  let tl := lowerStr text
  (get_banned_words st).any (fun w => pyIn w tl)

/-- The loop of `TelegramBot.check_auto_responses`: first stored pair whose
trigger occurs in the lowercased text. -/
def auto_respond_loop (rs : List AutoResponse) (tl : Str) : Option AutoResponse :=
  match rs with
  | [] => none
  | r :: rest => if pyIn r.trigger tl then some r else auto_respond_loop rest tl

/-- `TelegramBot.check_auto_responses`: send the first matching response as
a reply to the triggering message, or do nothing. -/
def check_auto_responses (st : BotState) (sends : List (Option Int)) (msg : Message) :
    BotState × List Effect :=
  match auto_respond_loop (get_auto_responses st.store) (lowerStr msg.text) with
  | none => (st, [])
  | some r => send_message st (takeSend sends).1 msg.chat_id r.response (some msg.message_id)

/-- Complaint confirmation sent to the user (right-associated so every
interpolated fragment is a visible piece). -/
def complaintConfText (cid : Int) : Str :=
  "✅ *Thank you for your message!*\n\n📝 Your complaint has been recorded with ID: *#".data ++
    (intToStr cid ++
      "*\n\n👨‍💼 Our admin will review and respond to you shortly.\n\n⏰ Average response time: 2-24 hours".data)

/-- Complaint notification sent to the admin (right-associated so every
interpolated fragment is a visible piece). -/
def complaintAdminText (username : Str) (uid : Int) (text : Str) (cid : Int) : Str :=
  "🔔 *New Customer Complaint*\n\n👤 User: @".data ++
    (username ++
      (" (".data ++
        (intToStr uid ++
          (")\n📝 Message: ".data ++
            (text ++
              ("\n🆔 Complaint ID: #".data ++
                (intToStr cid ++
                  ("\n\nTo reply: `".data ++
                    ("/reply ".data ++
                      (intToStr uid ++ " Your response here`".data))))))))))

/-- `TelegramBot.handle_complaint`: insert the complaint; when the insert
returns a row, confirm to the user and notify the admin; when it fails
(`None` result), do nothing further. -/
def handle_complaint (ctx : Ctx) (st : BotState) (sends : List (Option Int)) (msg : Message) :
    BotState × List Effect :=
  let u := msg.from_user
  let uname := u.username.getD "No username".data
  if ctx.complaintOk then
    let store1 := (add_complaint st.store u.id msg.text uname).1
    let cid := (add_complaint st.store u.id msg.text uname).2
    let st1 : BotState := { st with store := store1 }
    let st2 := (send_message st1 (takeSend sends).1 msg.chat_id (complaintConfText cid) none).1
    let e1 := (send_message st1 (takeSend sends).1 msg.chat_id (complaintConfText cid) none).2
    let st3 := (send_message st2 (takeSend (takeSend sends).2).1 ctx.adminId
      (complaintAdminText uname u.id msg.text cid) none).1
    let e2 := (send_message st2 (takeSend (takeSend sends).2).1 ctx.adminId
      (complaintAdminText uname u.id msg.text cid) none).2
    (st3, Effect.dbAddComplaint u.id msg.text uname :: (e1 ++ e2))
  else (st, [])

/-- Admin group-command help text shown by `/start` to group admins. -/
def strAdminGroupHelp : Str :=
  "🔧 *Admin Group Commands:*\n\n/closegroup - Close group for users\n/opengroup - Open group for users\n/addban <word> - Add banned word\n/removeban <word> - Remove banned word\n/setautodelete <minutes> - Set auto-delete time\n/admin - Show admin panel".data

/-- Welcome text shown by `/start` to regular users in a group. -/
def strWelcomeGroup : Str :=
  "👋 *Welcome!*\n\nI".data ++ [sq] ++
    "m your customer support bot. You can:\n• Send me a private message for support\n• Use commands here if you".data ++
    [sq] ++ "re an admin\n• Follow group rules and guidelines".data

/-- Welcome text shown by `/start` in a private chat. -/
def strWelcomePrivate : Str :=
  "👋 *Welcome to our Customer Support Bot!*\n\n🎯 How can we help you today?\n\nPlease choose an option below or write your complaint/question and we".data ++
    [sq] ++ "ll get back to you soon!".data

/-- `/admin` rejection for non-admin users in a private chat. -/
def strNoAdminPerms : Str :=
  "❌ You don".data ++ [sq] ++ "t have admin permissions.".data

/-- `/admin` rejection when the configured admin is not a group admin. -/
def strNeedGroupAdmin : Str := "❌ You need to be a group admin to use this command.".data

/-- Admin panel header. -/
def strAdminPanel : Str :=
  "🔧 *Admin Control Panel*\n\nWelcome to the admin dashboard. Choose an option:".data

/-- `TelegramBot.handle_start`: upsert the user, then greet according to
chat type and admin status (inline keyboards are not modelled). -/
def handle_start (ctx : Ctx) (st : BotState) (sends : List (Option Int)) (msg : Message) :
    BotState × List Effect :=
  let u := msg.from_user
  let uname := u.username.getD []
  let fname := u.first_name.getD []
  let lname := u.last_name.getD []
  let st1 : BotState := { st with store := add_user st.store u.id uname fname lname }
  let e0 := [Effect.dbUpsertUser u.id uname fname lname]
  match msg.chat_type with
  | ChatType.group | ChatType.supergroup =>
    if ctx.isAdminRes ∨ u.id = ctx.adminId then
      let (st2, e) := send_message st1 (takeSend sends).1 msg.chat_id strAdminGroupHelp none
      (st2, e0 ++ e)
    else
      let (st2, e) := send_message st1 (takeSend sends).1 msg.chat_id strWelcomeGroup none
      (st2, e0 ++ e)
  | ChatType.private_chat =>
    let (st2, e) := send_message st1 (takeSend sends).1 msg.chat_id strWelcomePrivate none
    (st2, e0 ++ e)
  | ChatType.other => (st1, e0)

/-- `TelegramBot.handle_admin_command`: `/admin` gatekeeping and panel. -/
def handle_admin_command (ctx : Ctx) (st : BotState) (sends : List (Option Int)) (msg : Message) :
    BotState × List Effect :=
  let uid := msg.from_user.id
  if uid ≠ ctx.adminId then
    if msg.chat_type = ChatType.private_chat then
      send_message st (takeSend sends).1 msg.chat_id strNoAdminPerms none
    else (st, [])
  else if (msg.chat_type = ChatType.group ∨ msg.chat_type = ChatType.supergroup) ∧
      ¬ctx.isAdminRes then
    send_message st (takeSend sends).1 msg.chat_id strNeedGroupAdmin none
  else
    send_message st (takeSend sends).1 msg.chat_id strAdminPanel none

/-- Confirmation for `/closegroup`. -/
def strClosedConf : Str := "🔒 Group has been closed. Only admins can send messages.".data

/-- Confirmation for `/opengroup`. -/
def strOpenConf : Str := "🔓 Group has been opened. Users can send messages.".data

/-- Confirmation for `/addban`. -/
def addbanConf (word : Str) : Str :=
  "✅ Added \"".data ++ word ++ "\" to banned words list.".data

/-- Confirmation for `/removeban`. -/
def removebanConf (word : Str) : Str :=
  "✅ Removed \"".data ++ word ++ "\" from banned words list.".data

/-- Confirmation for `/setautodelete` with positive minutes. -/
def autodeleteConf (minutes : Int) : Str :=
  "✅ Bot messages will now be auto-deleted after ".data ++ intToStr minutes ++ " minutes.".data

/-- Confirmation for `/setautodelete` with non-positive minutes. -/
def strAutodeleteOff : Str := "✅ Auto-delete disabled.".data

/-- Usage error for a malformed `/setautodelete` argument. -/
def strAutodeleteUsage : Str := "❌ Please provide a valid number of minutes.".data

/-- `TelegramBot.handle_admin_group_commands`: the five group admin
commands; anything else falls through silently. -/
def handle_admin_group_commands (ctx : Ctx) (st : BotState) (sends : List (Option Int))
    (msg : Message) : BotState × List Effect :=
  let text := msg.text
  let chat := msg.chat_id
  if text = "/closegroup".data then
    let p : SettingsPatch := { is_closed := some true }
    let st1 : BotState := { st with store := update_group_settings st.store p }
    let (st2, e) := send_message st1 (takeSend sends).1 chat strClosedConf none
    (st2, Effect.dbUpdateSettings p :: e)
  else if text = "/opengroup".data then
    let p : SettingsPatch := { is_closed := some false }
    let st1 : BotState := { st with store := update_group_settings st.store p }
    let (st2, e) := send_message st1 (takeSend sends).1 chat strOpenConf none
    (st2, Effect.dbUpdateSettings p :: e)
  else if "/addban ".data.isPrefixOf text then
    let word := (pySplit " ".data 1 text).getD 1 []
    let st1 : BotState := { st with store := add_banned_word st.store word }
    let (st2, e) := send_message st1 (takeSend sends).1 chat (addbanConf word) none
    (st2, Effect.dbAddBannedWord word :: e)
  else if "/removeban ".data.isPrefixOf text then
    let word := (pySplit " ".data 1 text).getD 1 []
    let st1 : BotState := { st with store := remove_banned_word st.store word }
    let (st2, e) := send_message st1 (takeSend sends).1 chat (removebanConf word) none
    (st2, Effect.dbRemoveBannedWord word :: e)
  else if "/setautodelete ".data.isPrefixOf text then
    match pyParseInt ((pySplit " ".data 1 text).getD 1 []) with
    | none => send_message st (takeSend sends).1 chat strAutodeleteUsage none
    | some minutes =>
      let p : SettingsPatch := { auto_delete_minutes := some minutes }
      let st1 : BotState := { st with store := update_group_settings st.store p }
      if minutes > 0 then
        let (st2, e) := send_message st1 (takeSend sends).1 chat (autodeleteConf minutes) none
        (st2, Effect.dbUpdateSettings p :: e)
      else
        let (st2, e) := send_message st1 (takeSend sends).1 chat strAutodeleteOff none
        (st2, Effect.dbUpdateSettings p :: e)
  else (st, [])

/-- Wrapper the admin reply is embedded in before delivery. -/
def replyWrap (replyText : Str) : Str :=
  "💬 *Response from Admin:*\n\n".data ++ replyText ++
    "\n\nIf you have more questions, feel free to ask!".data

/-- Confirmation to the admin after a delivered `/reply`. -/
def strReplySent : Str := "✅ Reply sent successfully!".data

/-- Notice sent when a non-admin posts in a closed group. -/
def strClosedNotice : Str := "🔒 Group is currently closed. Messages are not allowed.".data

/-- Usage error for `/addresponse` without the literal separator. -/
def strAddrespUsage : Str := "❌ Format: /addresponse <trigger> | <response>".data

/-- Confirmation for `/addresponse` (quotes the un-stripped trigger, as the
f-string does). -/
def addrespConf (trigger : Str) : Str :=
  "✅ Added auto response for \"".data ++ trigger ++ "\"".data

/-- Does the chat match the configured support group
(`GROUP_ID and str(chat_id) == GROUP_ID`)? -/
def groupMatches (g : Option Str) (chat : Int) : Bool :=
  match g with
  | some gs => decide (gs ≠ [] ∧ intToStr chat = gs)
  | none => false

/-- `TelegramBot.process_update` for a `message` update: the router.
A branch whose Python body raises an uncaught exception (the bare
`int(parts[1])` of `/reply`) yields no further effects: the top-level
`except` logs and drops the update. -/
def process_update (ctx : Ctx) (st : BotState) (sends : List (Option Int)) (msg : Message) :
    BotState × List Effect :=
  let text := msg.text
  let uid := msg.from_user.id
  let chat := msg.chat_id
  if "/start".data.isPrefixOf text then
    handle_start ctx st sends msg
  else if "/admin".data.isPrefixOf text then
    handle_admin_command ctx st sends msg
  else if msg.chat_type = ChatType.private_chat then
    if uid = ctx.adminId ∧ "/reply ".data.isPrefixOf text then
      let parts := pySplit " ".data 2 text
      if 3 ≤ parts.length then
        match pyParseInt (parts.getD 1 []) with
        | none => (st, [])
        | some target =>
          let (r1, s1) := takeSend sends
          let (st1, e1) := send_message st r1 target (replyWrap (parts.getD 2 [])) none
          let (r2, _) := takeSend s1
          let (st2, e2) := send_message st1 r2 ctx.adminId strReplySent none
          (st2, e1 ++ e2)
      else (st, [])
    else if uid = ctx.adminId ∧ "/addban ".data.isPrefixOf text then
      let word := (pySplit " ".data 1 text).getD 1 []
      let st1 : BotState := { st with store := add_banned_word st.store word }
      let (st2, e) := send_message st1 (takeSend sends).1 chat (addbanConf word) none
      (st2, Effect.dbAddBannedWord word :: e)
    else if uid = ctx.adminId ∧ "/removeban ".data.isPrefixOf text then
      let word := (pySplit " ".data 1 text).getD 1 []
      let st1 : BotState := { st with store := remove_banned_word st.store word }
      let (st2, e) := send_message st1 (takeSend sends).1 chat (removebanConf word) none
      (st2, Effect.dbRemoveBannedWord word :: e)
    else if uid = ctx.adminId ∧ "/addresponse ".data.isPrefixOf text then
      let content := (pySplit " ".data 1 text).getD 1 []
      match splitOnce " | ".data content with
      | none => send_message st (takeSend sends).1 chat strAddrespUsage none
      | some (trigger, response) =>
        let st1 : BotState :=
          { st with store := add_auto_response st.store (pyStrip trigger) (pyStrip response) }
        let (st2, e) := send_message st1 (takeSend sends).1 chat (addrespConf trigger) none
        (st2, Effect.dbAddAutoResponse (lowerStr (pyStrip trigger)) (pyStrip response) :: e)
    else
      handle_complaint ctx st sends msg
  else if groupMatches ctx.groupId chat then
    if uid = ctx.adminId ∨ ctx.isAdminRes then
      handle_admin_group_commands ctx st sends msg
    else
      let s := get_group_settings st.store
      if s.is_closed then
        let (r, _) := takeSend sends
        let (st1, e1) := send_message st r chat strClosedNotice none
        let e2 := match r with
          | some nid => [Effect.schedule chat nid 5]
          | none => []
        (st1, Effect.deleteMsg chat msg.message_id :: (e1 ++ e2))
      else if check_banned_words st.store text then
        handle_banned_word ctx st sends msg
      else
        check_auto_responses st sends msg
  else if msg.chat_type = ChatType.group ∨ msg.chat_type = ChatType.supergroup then
    if "/start".data.isPrefixOf text ∨ "/admin".data.isPrefixOf text then
      if "/start".data.isPrefixOf text then handle_start ctx st sends msg
      else handle_admin_command ctx st sends msg
    else if uid = ctx.adminId ∨ ctx.isAdminRes then
      handle_admin_group_commands ctx st sends msg
    else (st, [])
  else (st, [])

/-! ### A read/write interface for the `group_settings` table -/

/-- One database operation touching `group_settings`. -/
inductive SettingsOp where
  | read : SettingsOp
  | write : SettingsPatch → SettingsOp

/-- Run one settings operation: `read` is `get_group_settings` (which does
not modify the store), `write` is `update_group_settings`. -/
def applySettingsOp (st : Store) : SettingsOp → Store
  | SettingsOp.read => st
  | SettingsOp.write p => update_group_settings st p

/-- Run a sequence of settings operations. -/
def runSettingsOps (st : Store) : List SettingsOp → Store
  | [] => st
  | op :: rest => runSettingsOps (applySettingsOp st op) rest

/-- A store with all tables empty. -/
def emptyStore : Store :=
  { users := [], complaints := [], next_complaint_id := 1, banned_words := [],
    auto_responses := [], warnings := [], group_settings := [], next_settings_id := 1 }

/-- Number of rows in the `group_settings` table. -/
def settingsRowCount (st : Store) : Nat := st.group_settings.length

/-- A user's warning count as the handlers read it. -/
def warningCount (st : BotState) (uid : Int) : Nat := (get_user_warnings st.store uid).length

/-- `N` consecutive banned-word violations by the sender of `msg`
(each one handled by `handle_banned_word`). -/
def violations (ctx : Ctx) (msg : Message) : Nat → BotState → BotState
  | 0, st => st
  | n + 1, st => (handle_banned_word ctx (violations ctx msg n st) [] msg).1

/-! ### Helper lemmas -/

lemma update_settings_rowCount (st : Store) (p : SettingsPatch)
    (h : settingsRowCount st ≤ 1) : settingsRowCount (update_group_settings st p) = 1 := by
  unfold settingsRowCount update_group_settings at *
  match hg : st.group_settings with
  | [] => simp
  | [r] => simp
  | a :: b :: l => rw [hg] at h; simp at h

lemma update_settings_rowCount_le (st : Store) (p : SettingsPatch)
    (h : settingsRowCount st ≤ 1) : settingsRowCount (update_group_settings st p) ≤ 1 := by
  rw [update_settings_rowCount st p h]

lemma runSettingsOps_rowCount_le (ops : List SettingsOp) :
    ∀ st : Store, settingsRowCount st ≤ 1 → settingsRowCount (runSettingsOps st ops) ≤ 1 := by
  induction ops with
  | nil => intro st h; exact h
  | cons op rest ih =>
    intro st h
    match op with
    | SettingsOp.read => exact ih st h
    | SettingsOp.write p =>
      exact ih _ (update_settings_rowCount_le st p h)

lemma runSettingsOps_rowCount_one (ops : List SettingsOp) :
    ∀ st : Store, settingsRowCount st = 1 → settingsRowCount (runSettingsOps st ops) = 1 := by
  induction ops with
  | nil => intro st h; exact h
  | cons op rest ih =>
    intro st h
    match op with
    | SettingsOp.read => exact ih st h
    | SettingsOp.write p => exact ih _ (update_settings_rowCount st p (le_of_eq h))

lemma runSettingsOps_write_mem (ops : List SettingsOp) :
    ∀ st : Store, settingsRowCount st ≤ 1 → (∃ p, SettingsOp.write p ∈ ops) →
      settingsRowCount (runSettingsOps st ops) = 1 := by
  induction ops with
  | nil => intro st _ h; obtain ⟨p, hp⟩ := h; simp at hp
  | cons op rest ih =>
    intro st hle ⟨p, hp⟩
    rcases List.mem_cons.mp hp with heq | hmem
    · subst heq
      exact runSettingsOps_rowCount_one rest _ (update_settings_rowCount st p hle)
    · match op with
      | SettingsOp.read => exact ih st hle ⟨p, hmem⟩
      | SettingsOp.write q => exact ih _ (update_settings_rowCount_le st q hle) ⟨p, hmem⟩

lemma track_store (st : BotState) (c m : Int) : (track_bot_message st c m).1.store = st.store := by
  unfold track_bot_message
  split <;> rfl

lemma send_message_store (st : BotState) (r : Option Int) (c : Int) (t : Str) (rt : Option Int) :
    (send_message st r c t rt).1.store = st.store := by
  unfold send_message
  match r with
  | none => rfl
  | some mid => exact track_store st c mid

lemma sendsOf_append (a b : List Effect) : sendsOf (a ++ b) = sendsOf a ++ sendsOf b :=
  List.filter_append ..

lemma sendsOf_track (st : BotState) (c m : Int) : sendsOf (track_bot_message st c m).2 = [] := by
  unfold track_bot_message
  split <;> rfl

lemma sendsOf_send_message (st : BotState) (r : Option Int) (c : Int) (t : Str) (rt : Option Int) :
    sendsOf (send_message st r c t rt).2 = [Effect.send c t rt] := by
  unfold send_message
  match r with
  | none => rfl
  | some mid =>
    show sendsOf (Effect.send c t rt :: (track_bot_message st c mid).2) = _
    rw [show Effect.send c t rt :: (track_bot_message st c mid).2 =
      [Effect.send c t rt] ++ (track_bot_message st c mid).2 from rfl,
      sendsOf_append, sendsOf_track]
    rfl

/-! ### C2: the banned-word check -/

/-- Claim C2: for every message text `T` and stored banned-word set `W`
(whose members are lowercase, as the add/remove operations guarantee), the
banned-word check returns true iff some `w ∈ W` is a case-insensitive
substring of `T`; an empty `W` always yields false. -/
theorem claim_C2 (st : Store) (T : Str)
    (hW : ∀ w ∈ st.banned_words, lowerStr w = w) :
    (check_banned_words st T = true ↔
      ∃ w ∈ st.banned_words, lowerStr w <:+: lowerStr T)
    ∧ (st.banned_words = [] → check_banned_words st T = false) := by
  constructor
  · simp only [check_banned_words, get_banned_words, List.any_eq_true, pyIn,
      decide_eq_true_eq]
    constructor
    · rintro ⟨w, hw, hsub⟩
      exact ⟨w, hw, by rw [hW w hw]; exact hsub⟩
    · rintro ⟨w, hw, hsub⟩
      exact ⟨w, hw, by rw [hW w hw] at hsub; exact hsub⟩
  · intro h
    simp [check_banned_words, get_banned_words, h]

/-- Witness for C2 at a concrete store and text. -/
theorem claim_C2_witness :
    (check_banned_words { emptyStore with banned_words := ["spam".data] } "No SPAM today".data
        = true ↔
      ∃ w ∈ ({ emptyStore with banned_words := ["spam".data] } : Store).banned_words,
        lowerStr w <:+: lowerStr "No SPAM today".data)
    ∧ (({ emptyStore with banned_words := ["spam".data] } : Store).banned_words = [] →
        check_banned_words { emptyStore with banned_words := ["spam".data] } "No SPAM today".data
          = false) :=
  claim_C2 { emptyStore with banned_words := ["spam".data] } "No SPAM today".data (by decide)

/-! ### C10: an empty banned word matches every message -/

/-- The admin sends the text `/addban` followed by a single space. -/
def addbanEmptyMsg (chat mid : Int) (u : TgUser) : Message :=
  { text := "/addban ".data, chat_type := ChatType.group, chat_id := chat, message_id := mid,
    from_user := u }

/-- Claim C10: the admin input `/addban ` (empty payload after the first
space) stores the empty string as a banned word, after which the
banned-word check returns true for every message text. -/
theorem claim_C10 (ctx : Ctx) (st : BotState) (sends : List (Option Int)) (chat mid : Int)
    (u : TgUser) :
    ([] : Str) ∈ (handle_admin_group_commands ctx st sends
        (addbanEmptyMsg chat mid u)).1.store.banned_words
    ∧ ∀ T : Str, check_banned_words
        (handle_admin_group_commands ctx st sends (addbanEmptyMsg chat mid u)).1.store T
        = true := by
  have step : handle_admin_group_commands ctx st sends (addbanEmptyMsg chat mid u) =
      ((send_message { st with store := add_banned_word st.store [] } (takeSend sends).1 chat
          (addbanConf []) none).1,
        Effect.dbAddBannedWord [] ::
          (send_message { st with store := add_banned_word st.store [] } (takeSend sends).1 chat
            (addbanConf []) none).2) := rfl
  have hbw : (handle_admin_group_commands ctx st sends
      (addbanEmptyMsg chat mid u)).1.store.banned_words = st.store.banned_words ++ [[]] := by
    rw [step, send_message_store]
    rfl
  constructor
  · rw [hbw]; exact List.mem_append_right _ (by simp)
  · intro T
    simp only [check_banned_words, get_banned_words, hbw, List.any_eq_true]
    exact ⟨[], List.mem_append_right _ (by simp), by simp [pyIn, List.nil_infix]⟩

/-! ### C6: the group-settings singleton (corrected) -/

/-- Counterexample to C6 as stated: reading the settings does not create
the record, so after a one-read sequence on an empty store there are zero
rows, not exactly one. -/
theorem claim_C6_counterexample :
    settingsRowCount (runSettingsOps emptyStore [SettingsOp.read]) = 0
    ∧ ¬ settingsRowCount (runSettingsOps emptyStore [SettingsOp.read]) = 1 := by
  constructor <;> decide

/-- Claim C6, amended: reading when no record exists yields the documented
defaults and creates nothing; at most one record ever exists (every write
updates the existing row when one is present rather than inserting a
second); and after any sequence containing at least one write, exactly one
record exists. -/
theorem claim_C6_amended (st : Store) (ops : List SettingsOp)
    (h : settingsRowCount st ≤ 1) :
    get_group_settings emptyStore = defaultSettings
    ∧ (runSettingsOps emptyStore [SettingsOp.read]).group_settings = emptyStore.group_settings
    ∧ settingsRowCount (runSettingsOps st ops) ≤ 1
    ∧ ((∃ p, SettingsOp.write p ∈ ops) → settingsRowCount (runSettingsOps st ops) = 1) :=
  ⟨rfl, rfl, runSettingsOps_rowCount_le ops st h, runSettingsOps_write_mem ops st h⟩

/-- Witness for the amended C6 on a concrete store and op sequence. -/
theorem claim_C6_amended_witness :
    get_group_settings emptyStore = defaultSettings
    ∧ (runSettingsOps emptyStore [SettingsOp.read]).group_settings = emptyStore.group_settings
    ∧ settingsRowCount (runSettingsOps emptyStore
        [SettingsOp.read, SettingsOp.write { is_closed := some true }, SettingsOp.read,
          SettingsOp.write { auto_delete_minutes := some 2 }]) ≤ 1
    ∧ ((∃ p, SettingsOp.write p ∈
          [SettingsOp.read, SettingsOp.write { is_closed := some true }, SettingsOp.read,
            SettingsOp.write { auto_delete_minutes := some 2 }]) →
        settingsRowCount (runSettingsOps emptyStore
          [SettingsOp.read, SettingsOp.write { is_closed := some true }, SettingsOp.read,
            SettingsOp.write { auto_delete_minutes := some 2 }]) = 1) :=
  claim_C6_amended emptyStore _ (by decide)

/-! ### C9: auto-delete tracking of sent messages -/

/-- A store whose single settings row has `auto_delete_minutes = n`. -/
def storeAdm (n : Int) : Store :=
  { emptyStore with
      group_settings :=
        [(1, { is_closed := false, max_warnings := 3, mute_duration := 60,
               auto_delete_minutes := n })] }

/-- Claim C9: a failed send is never tracked; a successful send is a no-op
when `autoDeleteMinutes = 0`, and otherwise records the message and
schedules a deletion after that many minutes; when the timer fires, the
delete call is made once and the record is removed whether or not that
call succeeds. -/
theorem claim_C9 (st : BotState) (chat mid : Int) (text : Str) (rt : Option Int)
    (deleteOk : Bool) :
    (send_message st none chat text rt = (st, [Effect.send chat text rt]))
    ∧ ((get_group_settings st.store).auto_delete_minutes = 0 →
        send_message st (some mid) chat text rt = (st, [Effect.send chat text rt]))
    ∧ ((get_group_settings st.store).auto_delete_minutes > 0 →
        send_message st (some mid) chat text rt =
          ({ st with registry := st.registry ++ [(chat, mid)] },
           [Effect.send chat text rt,
            Effect.schedule chat mid ((get_group_settings st.store).auto_delete_minutes * 60)]))
    ∧ (schedule_message_deletion st deleteOk chat mid =
        ({ st with registry := st.registry.filter (fun p => ¬(p.1 = chat ∧ p.2 = mid)) },
         [Effect.deleteMsg chat mid]))
    ∧ (chat, mid) ∉ (schedule_message_deletion st deleteOk chat mid).1.registry := by
  refine ⟨rfl, ?_, ?_, rfl, ?_⟩
  · intro h
    simp [send_message, track_bot_message, h]
  · intro h
    simp [send_message, track_bot_message, h]
  · simp [schedule_message_deletion, List.mem_filter]

/-- Witness for C9: a disabled-auto-delete store and a 2-minute store. -/
theorem claim_C9_witness :
    (send_message ⟨storeAdm 0, []⟩ (some 7) 5 "hi".data none =
      (⟨storeAdm 0, []⟩, [Effect.send 5 "hi".data none]))
    ∧ (send_message ⟨storeAdm 2, []⟩ (some 7) 5 "hi".data none =
      (⟨storeAdm 2, [(5, 7)]⟩,
       [Effect.send 5 "hi".data none, Effect.schedule 5 7 120])) :=
  ⟨(claim_C9 ⟨storeAdm 0, []⟩ 5 7 "hi".data none true).2.1 (by decide),
   (claim_C9 ⟨storeAdm 2, []⟩ 5 7 "hi".data none true).2.2.1 (by decide)⟩

/-! ### C3: the auto-responder -/

lemma auto_respond_loop_none (tl : Str) (rs : List AutoResponse)
    (h : ∀ r ∈ rs, pyIn r.trigger tl = false) : auto_respond_loop rs tl = none := by
  induction rs with
  | nil => rfl
  | cons r rest ih =>
    have hr : pyIn r.trigger tl = false := h r (List.mem_cons_self ..)
    simp only [auto_respond_loop, hr, Bool.false_eq_true, if_false]
    exact ih (fun q hq => h q (List.mem_cons_of_mem _ hq))

lemma auto_respond_loop_first (tl : Str) (r : AutoResponse) (post : List AutoResponse) :
    ∀ pre : List AutoResponse, (∀ q ∈ pre, pyIn q.trigger tl = false) →
      pyIn r.trigger tl = true →
      auto_respond_loop (pre ++ r :: post) tl = some r := by
  intro pre
  induction pre with
  | nil =>
    intro _ hr
    simp [auto_respond_loop, hr]
  | cons q rest ih =>
    intro hpre hr
    have hq : pyIn q.trigger tl = false := hpre q (List.mem_cons_self ..)
    simp only [List.cons_append, auto_respond_loop, hq, Bool.false_eq_true, if_false]
    exact ih (fun x hx => hpre x (List.mem_cons_of_mem _ hx)) hr

/-- Claim C3: at most one auto-response is sent per message; when no stored
trigger occurs in the lowercased text nothing happens; and the first
stored pair whose trigger matches is the one sent, as a reply quoting the
original message. -/
theorem claim_C3 (st : BotState) (sends : List (Option Int)) (msg : Message) :
    (sendsOf (check_auto_responses st sends msg).2).length ≤ 1
    ∧ ((∀ r ∈ st.store.auto_responses, pyIn r.trigger (lowerStr msg.text) = false) →
        check_auto_responses st sends msg = (st, []))
    ∧ (∀ pre (r : AutoResponse) post, st.store.auto_responses = pre ++ r :: post →
        (∀ q ∈ pre, pyIn q.trigger (lowerStr msg.text) = false) →
        pyIn r.trigger (lowerStr msg.text) = true →
        sendsOf (check_auto_responses st sends msg).2 =
          [Effect.send msg.chat_id r.response (some msg.message_id)]) := by
  refine ⟨?_, ?_, ?_⟩
  · rcases h : auto_respond_loop (get_auto_responses st.store) (lowerStr msg.text) with _ | r
    · simp [check_auto_responses, h, sendsOf]
    · simp [check_auto_responses, h, sendsOf_send_message]
  · intro h
    have : auto_respond_loop (get_auto_responses st.store) (lowerStr msg.text) = none :=
      auto_respond_loop_none _ _ h
    simp [check_auto_responses, this]
  · intro pre r post heq hpre hr
    have : auto_respond_loop (get_auto_responses st.store) (lowerStr msg.text) = some r := by
      rw [show get_auto_responses st.store = pre ++ r :: post from heq]
      exact auto_respond_loop_first _ r post pre hpre hr
    simp [check_auto_responses, this, sendsOf_send_message]

/-- A concrete non-admin user. -/
def userEx : TgUser :=
  { id := 42, username := some "bob".data, first_name := none, last_name := none }

/-- Witness for C3: triggers `["hello", "lo"]` and text `"hello world"`
send the response stored for `"hello"`. -/
theorem claim_C3_witness :
    sendsOf (check_auto_responses
      ⟨{ emptyStore with
          auto_responses := [⟨"hello".data, "R1".data⟩, ⟨"lo".data, "R2".data⟩] }, []⟩
      [some 9]
      ⟨"hello world".data, ChatType.group, 5, 6, userEx⟩).2 =
    [Effect.send 5 "R1".data (some 6)] :=
  (claim_C3 _ _ _).2.2 [] ⟨"hello".data, "R1".data⟩ [⟨"lo".data, "R2".data⟩] rfl
    (by simp) (by decide)

/-! ### C7: the `/addresponse` separator boundary -/

lemma splitOnce_space (m : Str) :
    ∀ l : Str, ' ' ∉ l → splitOnce " ".data (l ++ ' ' :: m) = some (l, m) := by
  intro l
  induction l with
  | nil => intro _; simp [splitOnce, List.isPrefixOf]
  | cons c cs ih =>
    intro hl
    have hc : (' ' == c) = false := by
      have : c ≠ ' ' := fun h => hl (by simp [h])
      simp [this.symm]
    have hni : ' ' ∉ cs := fun h => hl (List.mem_cons_of_mem _ h)
    simp [splitOnce, List.isPrefixOf, hc, ih hni]

lemma sendsOf_cons_nonsend (e : Effect) (l : List Effect) (h : e.isSend = false) :
    sendsOf (e :: l) = sendsOf l := by
  simp [sendsOf, List.filter_cons, h]

/-- Routing reduction: an admin `/addresponse` in a private chat whose
payload contains the literal separator stores the trimmed pair and
confirms. -/
lemma pu_addresponse_some (ctx : Ctx) (st : BotState) (sends : List (Option Int))
    (chat mid : Int) (u : TgUser) (payload trigger response : Str)
    (hu : u.id = ctx.adminId)
    (hsep : splitOnce " | ".data payload = some (trigger, response)) :
    process_update ctx st sends
      ⟨"/addresponse ".data ++ payload, ChatType.private_chat, chat, mid, u⟩ =
    ((send_message { st with store := add_auto_response st.store (pyStrip trigger) (pyStrip response) } (takeSend sends).1 chat (addrespConf trigger) none).1,
      Effect.dbAddAutoResponse (lowerStr (pyStrip trigger)) (pyStrip response) ::
        (send_message { st with store := add_auto_response st.store (pyStrip trigger) (pyStrip response) } (takeSend sends).1 chat (addrespConf trigger) none).2) := by
  have hsep2 : splitOnce [' ', '|', ' '] payload = some (trigger, response) := hsep
  simp [process_update, hu, List.isPrefixOf, pySplit, splitOnce, List.getD, hsep2]

/-- Routing reduction: an admin `/addresponse` in a private chat whose
payload lacks the literal separator only produces the usage error. -/
lemma pu_addresponse_none (ctx : Ctx) (st : BotState) (sends : List (Option Int))
    (chat mid : Int) (u : TgUser) (payload : Str)
    (hu : u.id = ctx.adminId)
    (hsep : splitOnce " | ".data payload = none) :
    process_update ctx st sends
      ⟨"/addresponse ".data ++ payload, ChatType.private_chat, chat, mid, u⟩ =
    send_message st (takeSend sends).1 chat strAddrespUsage none := by
  have hsep2 : splitOnce [' ', '|', ' '] payload = none := hsep
  simp [process_update, hu, List.isPrefixOf, pySplit, splitOnce, List.getD, hsep2]

/-- Claim C7: `/addresponse` requires the literal `" | "` separator in its
payload: with it, the trimmed trigger/response pair is stored (the trigger
lowercased, as `add_auto_response` does) and a confirmation is sent;
without it, nothing is stored and a usage-format error is sent. -/
theorem claim_C7 (ctx : Ctx) (st : BotState) (sends : List (Option Int)) (chat mid : Int)
    (u : TgUser) (payload trigger response : Str) (hu : u.id = ctx.adminId) :
    (splitOnce " | ".data payload = some (trigger, response) →
      (process_update ctx st sends ⟨"/addresponse ".data ++ payload, ChatType.private_chat, chat, mid, u⟩).1.store.auto_responses
          = st.store.auto_responses ++ [⟨lowerStr (pyStrip trigger), pyStrip response⟩]
      ∧ sendsOf (process_update ctx st sends ⟨"/addresponse ".data ++ payload, ChatType.private_chat, chat, mid, u⟩).2
          = [Effect.send chat (addrespConf trigger) none])
    ∧ (splitOnce " | ".data payload = none →
      (process_update ctx st sends ⟨"/addresponse ".data ++ payload, ChatType.private_chat, chat, mid, u⟩).1.store = st.store
      ∧ sendsOf (process_update ctx st sends ⟨"/addresponse ".data ++ payload, ChatType.private_chat, chat, mid, u⟩).2
          = [Effect.send chat strAddrespUsage none]) := by
  constructor
  · intro hsep
    rw [pu_addresponse_some ctx st sends chat mid u payload trigger response hu hsep]
    constructor
    · rw [show ((send_message { st with store := add_auto_response st.store (pyStrip trigger) (pyStrip response) } (takeSend sends).1 chat (addrespConf trigger) none).1, Effect.dbAddAutoResponse (lowerStr (pyStrip trigger)) (pyStrip response) :: (send_message { st with store := add_auto_response st.store (pyStrip trigger) (pyStrip response) } (takeSend sends).1 chat (addrespConf trigger) none).2).1 = (send_message { st with store := add_auto_response st.store (pyStrip trigger) (pyStrip response) } (takeSend sends).1 chat (addrespConf trigger) none).1 from rfl, send_message_store]
      rfl
    · rw [show ((send_message { st with store := add_auto_response st.store (pyStrip trigger) (pyStrip response) } (takeSend sends).1 chat (addrespConf trigger) none).1, Effect.dbAddAutoResponse (lowerStr (pyStrip trigger)) (pyStrip response) :: (send_message { st with store := add_auto_response st.store (pyStrip trigger) (pyStrip response) } (takeSend sends).1 chat (addrespConf trigger) none).2).2 = Effect.dbAddAutoResponse (lowerStr (pyStrip trigger)) (pyStrip response) :: (send_message { st with store := add_auto_response st.store (pyStrip trigger) (pyStrip response) } (takeSend sends).1 chat (addrespConf trigger) none).2 from rfl,
        sendsOf_cons_nonsend (Effect.dbAddAutoResponse (lowerStr (pyStrip trigger)) (pyStrip response)) _ rfl, sendsOf_send_message]
  · intro hsep
    rw [pu_addresponse_none ctx st sends chat mid u payload hu hsep]
    exact ⟨send_message_store .., sendsOf_send_message ..⟩

/-- The configured admin as a Telegram user. -/
def adminU : TgUser :=
  { id := 99, username := some "root".data, first_name := none, last_name := none }

/-- A private-chat context: admin id 99, no group configured. -/
def ctxPriv : Ctx :=
  { adminId := 99, groupId := none, now := 1000, isAdminRes := false, complaintOk := true }

/-- Witness for C7 at the exact boundary from the spec:
`/addresponse foo | bar` succeeds, `/addresponse foo|bar` fails. -/
theorem claim_C7_witness :
    ((process_update ctxPriv ⟨emptyStore, []⟩ [some 3] ⟨"/addresponse ".data ++ "foo | bar".data, ChatType.private_chat, 99, 5, adminU⟩).1.store.auto_responses
        = [⟨"foo".data, "bar".data⟩]
      ∧ sendsOf (process_update ctxPriv ⟨emptyStore, []⟩ [some 3] ⟨"/addresponse ".data ++ "foo | bar".data, ChatType.private_chat, 99, 5, adminU⟩).2
        = [Effect.send 99 (addrespConf "foo".data) none])
    ∧ ((process_update ctxPriv ⟨emptyStore, []⟩ [some 3] ⟨"/addresponse ".data ++ "foo|bar".data, ChatType.private_chat, 99, 5, adminU⟩).1.store = emptyStore
      ∧ sendsOf (process_update ctxPriv ⟨emptyStore, []⟩ [some 3] ⟨"/addresponse ".data ++ "foo|bar".data, ChatType.private_chat, 99, 5, adminU⟩).2
        = [Effect.send 99 strAddrespUsage none]) :=
  ⟨(claim_C7 ctxPriv ⟨emptyStore, []⟩ [some 3] 99 5 adminU "foo | bar".data "foo".data
      "bar".data (by decide)).1 (by decide),
   (claim_C7 ctxPriv ⟨emptyStore, []⟩ [some 3] 99 5 adminU "foo|bar".data [] [] (by decide)).2
      (by decide)⟩

/-! ### C8: malformed admin command input (corrected) -/

/-- Routing reduction: an admin `/reply` in a private chat with three
tokens whose userId token does not parse as an integer raises `ValueError`
past the local code, so the top-level handler drops the update: no
effects, no state change. -/
lemma pu_reply_badint (ctx : Ctx) (st : BotState) (sends : List (Option Int))
    (chat mid : Int) (u : TgUser) (a b : Str) (hu : u.id = ctx.adminId)
    (ha : ' ' ∉ a) (hparse : pyParseInt a = none) :
    process_update ctx st sends
      ⟨"/reply ".data ++ (a ++ ' ' :: b), ChatType.private_chat, chat, mid, u⟩ = (st, []) := by
  have hs : splitOnce [' '] (a ++ ' ' :: b) = some (a, b) := splitOnce_space b a ha
  simp [process_update, hu, List.isPrefixOf, pySplit, splitOnce, List.getD, hs, hparse]

/-- Group-command reduction: `/setautodelete` with an unparsable minutes
argument sends the usage message and changes nothing. -/
lemma hagc_setautodelete_badint (ctx : Ctx) (st : BotState) (sends : List (Option Int))
    (chat mid : Int) (u : TgUser) (ct : ChatType) (arg : Str)
    (hparse : pyParseInt arg = none) :
    handle_admin_group_commands ctx st sends ⟨"/setautodelete ".data ++ arg, ct, chat, mid, u⟩ =
      send_message st (takeSend sends).1 chat strAutodeleteUsage none := by
  simp [handle_admin_group_commands, List.isPrefixOf, pySplit, splitOnce, List.getD, hparse]

/-- Counterexample to C8 as stated: the admin sends `/reply abc hello` (a
non-integer userId) in a private chat, and the bot emits no message at all
— the `int()` call raises and the update is dropped, so the claimed
formatted-usage message never reaches the admin. -/
theorem claim_C8_counterexample :
    process_update ctxPriv ⟨emptyStore, []⟩ [some 3, some 4]
      ⟨"/reply abc hello".data, ChatType.private_chat, 99, 5, adminU⟩ = (⟨emptyStore, []⟩, [])
    ∧ sendsOf (process_update ctxPriv ⟨emptyStore, []⟩ [some 3, some 4]
      ⟨"/reply abc hello".data, ChatType.private_chat, 99, 5, adminU⟩).2 = [] := by
  constructor <;> rfl

/-- Claim C8, amended: `/setautodelete` with a bad integer and
`/addresponse` with a missing separator produce a user-visible
formatted-usage message and no store mutation; but `/reply` with a
non-integer userId is not reported — the uncaught `ValueError` makes the
top-level handler drop the update silently (still with no store
mutation). -/
theorem claim_C8_amended (ctx : Ctx) (st : BotState) (sends : List (Option Int)) (chat mid : Int)
    (u : TgUser) (ct : ChatType) (arg payload a b : Str) (hu : u.id = ctx.adminId) :
    (pyParseInt arg = none →
      (handle_admin_group_commands ctx st sends ⟨"/setautodelete ".data ++ arg, ct, chat, mid, u⟩).1.store = st.store
      ∧ sendsOf (handle_admin_group_commands ctx st sends ⟨"/setautodelete ".data ++ arg, ct, chat, mid, u⟩).2
          = [Effect.send chat strAutodeleteUsage none])
    ∧ (splitOnce " | ".data payload = none →
      (process_update ctx st sends ⟨"/addresponse ".data ++ payload, ChatType.private_chat, chat, mid, u⟩).1.store = st.store
      ∧ sendsOf (process_update ctx st sends ⟨"/addresponse ".data ++ payload, ChatType.private_chat, chat, mid, u⟩).2
          = [Effect.send chat strAddrespUsage none])
    ∧ (' ' ∉ a → pyParseInt a = none →
      process_update ctx st sends
        ⟨"/reply ".data ++ (a ++ ' ' :: b), ChatType.private_chat, chat, mid, u⟩ = (st, [])) := by
  refine ⟨?_, ?_, ?_⟩
  · intro hparse
    rw [hagc_setautodelete_badint ctx st sends chat mid u ct arg hparse]
    exact ⟨send_message_store .., sendsOf_send_message ..⟩
  · intro hsep
    rw [pu_addresponse_none ctx st sends chat mid u payload hu hsep]
    exact ⟨send_message_store .., sendsOf_send_message ..⟩
  · intro ha hparse
    exact pu_reply_badint ctx st sends chat mid u a b hu ha hparse

/-- Witness for the amended C8 at concrete malformed inputs. -/
theorem claim_C8_amended_witness :
    ((handle_admin_group_commands ctxPriv ⟨emptyStore, []⟩ [some 3]
        ⟨"/setautodelete abc".data, ChatType.group, 99, 5, adminU⟩).1.store = emptyStore
      ∧ sendsOf (handle_admin_group_commands ctxPriv ⟨emptyStore, []⟩ [some 3]
        ⟨"/setautodelete abc".data, ChatType.group, 99, 5, adminU⟩).2
          = [Effect.send 99 strAutodeleteUsage none])
    ∧ ((process_update ctxPriv ⟨emptyStore, []⟩ [some 3]
        ⟨"/addresponse foo|bar".data, ChatType.private_chat, 99, 5, adminU⟩).1.store = emptyStore
      ∧ sendsOf (process_update ctxPriv ⟨emptyStore, []⟩ [some 3]
        ⟨"/addresponse foo|bar".data, ChatType.private_chat, 99, 5, adminU⟩).2
          = [Effect.send 99 strAddrespUsage none])
    ∧ process_update ctxPriv ⟨emptyStore, []⟩ [some 3]
        ⟨"/reply xyz hello".data, ChatType.private_chat, 99, 5, adminU⟩ = (⟨emptyStore, []⟩, []) :=
  ⟨(claim_C8_amended ctxPriv ⟨emptyStore, []⟩ [some 3] 99 5 adminU ChatType.group "abc".data
      "foo|bar".data "xyz".data "hello".data (by decide)).1 (by decide),
   (claim_C8_amended ctxPriv ⟨emptyStore, []⟩ [some 3] 99 5 adminU ChatType.group "abc".data
      "foo|bar".data "xyz".data "hello".data (by decide)).2.1 (by decide),
   (claim_C8_amended ctxPriv ⟨emptyStore, []⟩ [some 3] 99 5 adminU ChatType.group "abc".data
      "foo|bar".data "xyz".data "hello".data (by decide)).2.2 (by decide) (by decide)⟩

/-! ### C5: the complaint flow -/

lemma infix_extend_left (a : Str) {x y : Str} (h : x <:+: y) : x <:+: a ++ y := by
  obtain ⟨s, t, rfl⟩ := h
  exact ⟨a ++ s, t, by simp [List.append_assoc]⟩

lemma infix_head (x rest : Str) : x <:+: x ++ rest :=
  ⟨[], rest, by simp⟩

/-- Routing reduction: a private-chat message that is not a command and
does not come from the admin is handled as a complaint. -/
lemma pu_private_complaint (ctx : Ctx) (st : BotState) (sends : List (Option Int)) (msg : Message)
    (hpriv : msg.chat_type = ChatType.private_chat)
    (hs : "/start".data.isPrefixOf msg.text = false)
    (ha : "/admin".data.isPrefixOf msg.text = false)
    (hu : msg.from_user.id ≠ ctx.adminId) :
    process_update ctx st sends msg = handle_complaint ctx st sends msg := by
  simp [process_update, hpriv, hs, ha, hu]

/-- Claim C5: a free-text private message from a non-admin persists a
pending complaint; when persistence succeeds the sender gets a
confirmation carrying the assigned id and the admin gets a notification
carrying the id, the sender's id and username, the verbatim text, and the
`/reply` instructions; when persistence fails, nothing is sent and
nothing is stored. -/
theorem claim_C5 (ctx : Ctx) (st : BotState) (sends : List (Option Int)) (msg : Message)
    (hpriv : msg.chat_type = ChatType.private_chat)
    (hs : "/start".data.isPrefixOf msg.text = false)
    (ha : "/admin".data.isPrefixOf msg.text = false)
    (hu : msg.from_user.id ≠ ctx.adminId) :
    (ctx.complaintOk = true →
      (process_update ctx st sends msg).1.store.complaints
        = st.store.complaints ++
          [{ id := st.store.next_complaint_id, user_id := msg.from_user.id,
             username := msg.from_user.username.getD "No username".data, message := msg.text,
             status := "pending".data }]
      ∧ sendsOf (process_update ctx st sends msg).2
        = [Effect.send msg.chat_id (complaintConfText st.store.next_complaint_id) none,
           Effect.send ctx.adminId (complaintAdminText (msg.from_user.username.getD "No username".data) msg.from_user.id msg.text st.store.next_complaint_id) none]
      ∧ intToStr st.store.next_complaint_id <:+: complaintConfText st.store.next_complaint_id
      ∧ intToStr st.store.next_complaint_id <:+: complaintAdminText (msg.from_user.username.getD "No username".data) msg.from_user.id msg.text st.store.next_complaint_id
      ∧ intToStr msg.from_user.id <:+: complaintAdminText (msg.from_user.username.getD "No username".data) msg.from_user.id msg.text st.store.next_complaint_id
      ∧ msg.from_user.username.getD "No username".data <:+: complaintAdminText (msg.from_user.username.getD "No username".data) msg.from_user.id msg.text st.store.next_complaint_id
      ∧ msg.text <:+: complaintAdminText (msg.from_user.username.getD "No username".data) msg.from_user.id msg.text st.store.next_complaint_id
      ∧ "/reply ".data <:+: complaintAdminText (msg.from_user.username.getD "No username".data) msg.from_user.id msg.text st.store.next_complaint_id)
    ∧ (ctx.complaintOk = false → process_update ctx st sends msg = (st, [])) := by
  have hroute := pu_private_complaint ctx st sends msg hpriv hs ha hu
  constructor
  · intro hok
    rw [hroute]
    refine ⟨?_, ?_, ?_, ?_, ?_, ?_, ?_, ?_⟩
    · simp [handle_complaint, hok, send_message_store, add_complaint]
    · simp [handle_complaint, hok, sendsOf_append, sendsOf_send_message, sendsOf_cons_nonsend,
        Effect.isSend, add_complaint]
    · exact infix_extend_left _ (infix_head _ _)
    · unfold complaintAdminText
      exact infix_extend_left _ (infix_extend_left _ (infix_extend_left _ (infix_extend_left _
        (infix_extend_left _ (infix_extend_left _ (infix_extend_left _ (infix_head _ _)))))))
    · unfold complaintAdminText
      exact infix_extend_left _ (infix_extend_left _ (infix_extend_left _ (infix_head _ _)))
    · unfold complaintAdminText
      exact infix_extend_left _ (infix_head _ _)
    · unfold complaintAdminText
      exact infix_extend_left _ (infix_extend_left _ (infix_extend_left _ (infix_extend_left _
        (infix_extend_left _ (infix_head _ _)))))
    · unfold complaintAdminText
      exact infix_extend_left _ (infix_extend_left _ (infix_extend_left _ (infix_extend_left _
        (infix_extend_left _ (infix_extend_left _ (infix_extend_left _ (infix_extend_left _
          (infix_extend_left _ (infix_head _ _)))))))))
  · intro hno
    rw [hroute]
    simp [handle_complaint, hno]

/-- A private context whose complaint insert fails. -/
def ctxPrivNoDb : Ctx :=
  { adminId := 99, groupId := none, now := 1000, isAdminRes := false, complaintOk := false }

/-- Witness for C5: the scenario complaint "my order is late" from user 42
(`@bob`), with a succeeding and with a failing insert. -/
theorem claim_C5_witness :
    ((process_update ctxPriv ⟨emptyStore, []⟩ [some 3, some 4]
        ⟨"my order is late".data, ChatType.private_chat, 42, 5, userEx⟩).1.store.complaints
      = [{ id := 1, user_id := 42, username := "bob".data, message := "my order is late".data,
           status := "pending".data }])
    ∧ sendsOf (process_update ctxPriv ⟨emptyStore, []⟩ [some 3, some 4]
        ⟨"my order is late".data, ChatType.private_chat, 42, 5, userEx⟩).2
      = [Effect.send 42 (complaintConfText 1) none,
         Effect.send 99 (complaintAdminText "bob".data 42 "my order is late".data 1) none]
    ∧ process_update ctxPrivNoDb ⟨emptyStore, []⟩ [some 3, some 4]
        ⟨"my order is late".data, ChatType.private_chat, 42, 5, userEx⟩ = (⟨emptyStore, []⟩, []) :=
  ⟨((claim_C5 ctxPriv ⟨emptyStore, []⟩ [some 3, some 4]
      ⟨"my order is late".data, ChatType.private_chat, 42, 5, userEx⟩ rfl (by decide) (by decide)
      (by decide)).1 rfl).1,
   ((claim_C5 ctxPriv ⟨emptyStore, []⟩ [some 3, some 4]
      ⟨"my order is late".data, ChatType.private_chat, 42, 5, userEx⟩ rfl (by decide) (by decide)
      (by decide)).1 rfl).2.1,
   (claim_C5 ctxPrivNoDb ⟨emptyStore, []⟩ [some 3, some 4]
      ⟨"my order is late".data, ChatType.private_chat, 42, 5, userEx⟩ rfl (by decide) (by decide)
      (by decide)).2 rfl⟩

/-! ### C4: the closed-group path -/

lemma sendsOf_cons_send (c : Int) (t : Str) (r : Option Int) (l : List Effect) :
    sendsOf (Effect.send c t r :: l) = Effect.send c t r :: sendsOf l := by
  simp [sendsOf, List.filter_cons, Effect.isSend]

lemma mem_track_schedule {e : Effect} (st : BotState) (c m : Int)
    (h : e ∈ (track_bot_message st c m).2) :
    e = Effect.schedule c m ((get_group_settings st.store).auto_delete_minutes * 60) := by
  unfold track_bot_message at h
  split at h <;> simp_all

/-- Routing reduction: a non-command message from a non-admin in the
support group while it is closed: delete the message, send the closed
notice (tracking it like any outbound send), and schedule that notice for
deletion after the fixed 5-second delay. -/
lemma pu_group_closed (ctx : Ctx) (st : BotState) (sends : List (Option Int)) (msg : Message)
    (nid : Int) (rest : List (Option Int))
    (hs : "/start".data.isPrefixOf msg.text = false)
    (ha : "/admin".data.isPrefixOf msg.text = false)
    (hpriv : msg.chat_type ≠ ChatType.private_chat)
    (hg : groupMatches ctx.groupId msg.chat_id = true)
    (hu : msg.from_user.id ≠ ctx.adminId)
    (hadm : ctx.isAdminRes = false)
    (hclosed : (get_group_settings st.store).is_closed = true)
    (hsends : sends = some nid :: rest) :
    process_update ctx st sends msg =
      ((track_bot_message st msg.chat_id nid).1,
        Effect.deleteMsg msg.chat_id msg.message_id ::
          ((Effect.send msg.chat_id strClosedNotice none ::
              (track_bot_message st msg.chat_id nid).2) ++
            [Effect.schedule msg.chat_id nid 5])) := by
  subst hsends
  simp [process_update, hs, ha, hpriv, hg, hu, hadm, hclosed, send_message, takeSend]

/-- Claim C4: in the closed support group a non-admin, non-command message
is deleted, the closed-group notice is sent and scheduled for deletion
after a fixed 5 seconds (whatever `autoDeleteMinutes` is), the store is
untouched, the notice is the only message sent, and neither the
banned-word flow nor the auto-responder ever runs. -/
theorem claim_C4 (ctx : Ctx) (st : BotState) (sends : List (Option Int)) (msg : Message)
    (nid : Int) (rest : List (Option Int))
    (hs : "/start".data.isPrefixOf msg.text = false)
    (ha : "/admin".data.isPrefixOf msg.text = false)
    (hpriv : msg.chat_type ≠ ChatType.private_chat)
    (hg : groupMatches ctx.groupId msg.chat_id = true)
    (hu : msg.from_user.id ≠ ctx.adminId)
    (hadm : ctx.isAdminRes = false)
    (hclosed : (get_group_settings st.store).is_closed = true)
    (hsends : sends = some nid :: rest) :
    process_update ctx st sends msg =
      ((track_bot_message st msg.chat_id nid).1,
        Effect.deleteMsg msg.chat_id msg.message_id ::
          ((Effect.send msg.chat_id strClosedNotice none ::
              (track_bot_message st msg.chat_id nid).2) ++
            [Effect.schedule msg.chat_id nid 5]))
    ∧ Effect.schedule msg.chat_id nid 5 ∈ (process_update ctx st sends msg).2
    ∧ (process_update ctx st sends msg).1.store = st.store
    ∧ sendsOf (process_update ctx st sends msg).2 = [Effect.send msg.chat_id strClosedNotice none]
    ∧ (∀ uid' r, Effect.dbAddWarning uid' r ∉ (process_update ctx st sends msg).2)
    ∧ (∀ c u' untilEpoch, Effect.restrict c u' untilEpoch ∉ (process_update ctx st sends msg).2) := by
  have hred := pu_group_closed ctx st sends msg nid rest hs ha hpriv hg hu hadm hclosed hsends
  refine ⟨hred, ?_, ?_, ?_, ?_, ?_⟩
  · rw [hred]; simp
  · rw [hred]; exact track_store st msg.chat_id nid
  · rw [hred]
    rw [sendsOf_cons_nonsend (Effect.deleteMsg msg.chat_id msg.message_id) _ rfl, sendsOf_append,
      sendsOf_cons_send, sendsOf_track]
    rfl
  · intro uid' r hmem
    rw [hred] at hmem
    simp at hmem
    exact absurd (mem_track_schedule st msg.chat_id nid hmem) (by simp)
  · intro c u' untilEpoch hmem
    rw [hred] at hmem
    simp at hmem
    exact absurd (mem_track_schedule st msg.chat_id nid hmem) (by simp)

/-- A store whose single settings row has the group closed. -/
def storeClosed : Store :=
  { emptyStore with
      group_settings :=
        [(1, { is_closed := true, max_warnings := 3, mute_duration := 60,
               auto_delete_minutes := 0 })] }

/-- A support-group context: admin id 99, support group -100. -/
def ctxGroup : Ctx :=
  { adminId := 99, groupId := some "-100".data, now := 1000, isAdminRes := false,
    complaintOk := true }

/-- Witness for C4: the concrete closed-group scenario. -/
theorem claim_C4_witness :
    process_update ctxGroup ⟨storeClosed, []⟩ [some 7]
        ⟨"hello".data, ChatType.supergroup, -100, 77, userEx⟩ =
      ((track_bot_message ⟨storeClosed, []⟩ (-100) 7).1,
        Effect.deleteMsg (-100) 77 ::
          ((Effect.send (-100) strClosedNotice none ::
              (track_bot_message ⟨storeClosed, []⟩ (-100) 7).2) ++
            [Effect.schedule (-100) 7 5]))
    ∧ Effect.schedule (-100) 7 5 ∈ (process_update ctxGroup ⟨storeClosed, []⟩ [some 7]
        ⟨"hello".data, ChatType.supergroup, -100, 77, userEx⟩).2 :=
  ⟨(claim_C4 ctxGroup ⟨storeClosed, []⟩ [some 7]
      ⟨"hello".data, ChatType.supergroup, -100, 77, userEx⟩ 7 [] (by decide) (by decide)
      (by decide) (by decide) (by decide) rfl (by decide) rfl).1,
   (claim_C4 ctxGroup ⟨storeClosed, []⟩ [some 7]
      ⟨"hello".data, ChatType.supergroup, -100, 77, userEx⟩ 7 [] (by decide) (by decide)
      (by decide) (by decide) (by decide) rfl (by decide) rfl).2.1⟩

/-! ### C1: the moderation escalation flow -/

lemma warnCount_add_self (st : Store) (uid : Int) (r : Str) :
    (get_user_warnings (add_warning st uid r) uid).length
      = (get_user_warnings st uid).length + 1 := by
  simp [get_user_warnings, add_warning, List.filter_append]

lemma filter_ne_filter_eq (l : List (Int × Str)) (uid : Int) :
    ((l.filter (fun p => p.1 ≠ uid)).filter (fun p => p.1 = uid)) = [] := by
  induction l with
  | nil => rfl
  | cons a l ih => by_cases h : a.1 = uid <;> simp [List.filter_cons, h, ih]

lemma get_group_settings_add_warning (st : Store) (uid : Int) (r : Str) :
    get_group_settings (add_warning st uid r) = get_group_settings st := rfl

lemma get_group_settings_congr {a b : Store} (h : a.group_settings = b.group_settings) :
    get_group_settings a = get_group_settings b := by
  unfold get_group_settings
  rw [h]

/-- Branch reduction for `handle_banned_word`: the count (read back after
the insert) has reached the threshold, so the user is restricted until
`now + muteDurationMinutes*60`, the mute is announced, and the warnings
are cleared. -/
lemma hbw_mute_eq (ctx : Ctx) (st : BotState) (sends : List (Option Int)) (msg : Message)
    (h : (get_group_settings st.store).max_warnings ≤ (warningCount st msg.from_user.id : Int) + 1) :
    handle_banned_word ctx st sends msg =
      ({ (send_message { st with store := add_warning st.store msg.from_user.id strUsedBannedWord } (takeSend sends).1 msg.chat_id (muteText msg.from_user (get_group_settings st.store).mute_duration) none).1 with store := clear_user_warnings (send_message { st with store := add_warning st.store msg.from_user.id strUsedBannedWord } (takeSend sends).1 msg.chat_id (muteText msg.from_user (get_group_settings st.store).mute_duration) none).1.store msg.from_user.id },
       Effect.deleteMsg msg.chat_id msg.message_id ::
         Effect.dbAddWarning msg.from_user.id strUsedBannedWord ::
         Effect.restrict msg.chat_id msg.from_user.id
           (ctx.now + (get_group_settings st.store).mute_duration * 60) ::
         ((send_message { st with store := add_warning st.store msg.from_user.id strUsedBannedWord } (takeSend sends).1 msg.chat_id (muteText msg.from_user (get_group_settings st.store).mute_duration) none).2 ++
           [Effect.dbClearWarnings msg.from_user.id])) := by
  have hc : ((get_user_warnings (add_warning st.store msg.from_user.id strUsedBannedWord) msg.from_user.id).length : Int)
      = (warningCount st msg.from_user.id : Int) + 1 := by
    rw [warnCount_add_self]
    push_cast
    simp [warningCount]
  have hcond : (get_group_settings st.store).max_warnings ≤
      ((get_user_warnings (add_warning st.store msg.from_user.id strUsedBannedWord) msg.from_user.id).length : Int) := by
    rw [hc]; exact h
  simp only [handle_banned_word, get_group_settings_add_warning]
  rw [if_pos hcond]

/-- Branch reduction for `handle_banned_word`: the count is still below the
threshold, so the warning is announced as "Warning k/maxWarnings". -/
lemma hbw_warn_eq (ctx : Ctx) (st : BotState) (sends : List (Option Int)) (msg : Message)
    (h : (warningCount st msg.from_user.id : Int) + 1 < (get_group_settings st.store).max_warnings) :
    handle_banned_word ctx st sends msg =
      ((send_message { st with store := add_warning st.store msg.from_user.id strUsedBannedWord } (takeSend sends).1 msg.chat_id (warnText msg.from_user ((warningCount st msg.from_user.id : Int) + 1) (get_group_settings st.store).max_warnings) none).1,
       Effect.deleteMsg msg.chat_id msg.message_id ::
         Effect.dbAddWarning msg.from_user.id strUsedBannedWord ::
         (send_message { st with store := add_warning st.store msg.from_user.id strUsedBannedWord } (takeSend sends).1 msg.chat_id (warnText msg.from_user ((warningCount st msg.from_user.id : Int) + 1) (get_group_settings st.store).max_warnings) none).2) := by
  have hc : ((get_user_warnings (add_warning st.store msg.from_user.id strUsedBannedWord) msg.from_user.id).length : Int)
      = (warningCount st msg.from_user.id : Int) + 1 := by
    rw [warnCount_add_self]
    push_cast
    simp [warningCount]
  have hcond : ¬((get_group_settings st.store).max_warnings ≤
      ((get_user_warnings (add_warning st.store msg.from_user.id strUsedBannedWord) msg.from_user.id).length : Int)) := by
    rw [hc]; exact not_le.mpr h
  simp only [handle_banned_word, get_group_settings_add_warning]
  rw [if_neg hcond, hc]

/-- One violation either increments the sender's warning count or, when
the incremented count reaches the threshold, resets it to zero. -/
lemma hbw_count (ctx : Ctx) (st : BotState) (sends : List (Option Int)) (msg : Message) :
    warningCount (handle_banned_word ctx st sends msg).1 msg.from_user.id =
      if (get_group_settings st.store).max_warnings ≤ (warningCount st msg.from_user.id : Int) + 1
      then 0 else warningCount st msg.from_user.id + 1 := by
  by_cases hC : (get_group_settings st.store).max_warnings ≤
      (warningCount st msg.from_user.id : Int) + 1
  · rw [hbw_mute_eq ctx st sends msg hC, if_pos hC]
    simp [warningCount, get_user_warnings, clear_user_warnings, send_message_store,
      filter_ne_filter_eq]
  · rw [hbw_warn_eq ctx st sends msg (not_le.mp hC), if_neg hC]
    simp only [warningCount, send_message_store]
    exact warnCount_add_self st.store msg.from_user.id strUsedBannedWord

/-- One violation never touches the settings table. -/
lemma hbw_settings (ctx : Ctx) (st : BotState) (sends : List (Option Int)) (msg : Message) :
    (handle_banned_word ctx st sends msg).1.store.group_settings = st.store.group_settings := by
  by_cases hC : (get_group_settings st.store).max_warnings ≤
      (warningCount st msg.from_user.id : Int) + 1
  · rw [hbw_mute_eq ctx st sends msg hC]
    simp [clear_user_warnings, send_message_store, add_warning]
  · rw [hbw_warn_eq ctx st sends msg (not_le.mp hC)]
    simp [send_message_store, add_warning]

lemma violations_settings (ctx : Ctx) (msg : Message) (st : BotState) :
    ∀ N : Nat, (violations ctx msg N st).store.group_settings = st.store.group_settings := by
  intro N
  induction N with
  | zero => rfl
  | succ n ih =>
    show (handle_banned_word ctx (violations ctx msg n st) [] msg).1.store.group_settings = _
    rw [hbw_settings, ih]

lemma violations_count_lt (ctx : Ctx) (msg : Message) (st : BotState)
    (h0 : warningCount st msg.from_user.id = 0) :
    ∀ N : Nat, (N : Int) < (get_group_settings st.store).max_warnings →
      warningCount (violations ctx msg N st) msg.from_user.id = N := by
  intro N
  induction N with
  | zero => intro _; exact h0
  | succ n ih =>
    intro hlt
    have hn : (n : Int) < (get_group_settings st.store).max_warnings := by
      push_cast at hlt ⊢
      omega
    have hcount := ih hn
    show warningCount (handle_banned_word ctx (violations ctx msg n st) [] msg).1
      msg.from_user.id = n + 1
    rw [hbw_count ctx (violations ctx msg n st) [] msg,
      get_group_settings_congr (violations_settings ctx msg st n), hcount,
      if_neg (by push_cast at hlt ⊢; omega)]

lemma violations_count_reset (ctx : Ctx) (msg : Message) (st : BotState)
    (h0 : warningCount st msg.from_user.id = 0)
    (hpos : 0 < (get_group_settings st.store).max_warnings)
    (N : Nat) (hN : (N : Int) = (get_group_settings st.store).max_warnings) :
    warningCount (violations ctx msg N st) msg.from_user.id = 0 := by
  cases N with
  | zero =>
    push_cast at hN
    omega
  | succ n =>
    have hn : (n : Int) < (get_group_settings st.store).max_warnings := by
      push_cast at hN ⊢
      omega
    have hcount := violations_count_lt ctx msg st h0 n hn
    show warningCount (handle_banned_word ctx (violations ctx msg n st) [] msg).1
      msg.from_user.id = 0
    rw [hbw_count ctx (violations ctx msg n st) [] msg,
      get_group_settings_congr (violations_settings ctx msg st n), hcount,
      if_pos (by push_cast at hN ⊢; omega)]

lemma sendsOf_nil : sendsOf [] = [] := rfl

/-- Claim C1: a banned-word violation first deletes the offending message,
then records one Warning with reason "Used banned word", then reads back
the count; at or above the threshold it restricts the member until
`now + muteDurationMinutes*60`, announces the mute, and clears the user's
warnings (count resets to 0); below it, it announces "Warning
k/maxWarnings" with k the current count; and N consecutive violations
with no intervening mute leave the count at N, the threshold-reaching
violation resetting it to 0. -/
theorem claim_C1 (ctx : Ctx) (st : BotState) (sends : List (Option Int)) (msg : Message) :
    ((get_group_settings st.store).max_warnings ≤ (warningCount st msg.from_user.id : Int) + 1 →
      (handle_banned_word ctx st sends msg).2 =
        Effect.deleteMsg msg.chat_id msg.message_id ::
          Effect.dbAddWarning msg.from_user.id strUsedBannedWord ::
          Effect.restrict msg.chat_id msg.from_user.id
            (ctx.now + (get_group_settings st.store).mute_duration * 60) ::
          ((send_message { st with store := add_warning st.store msg.from_user.id strUsedBannedWord } (takeSend sends).1 msg.chat_id (muteText msg.from_user (get_group_settings st.store).mute_duration) none).2 ++
            [Effect.dbClearWarnings msg.from_user.id])
      ∧ sendsOf (handle_banned_word ctx st sends msg).2 =
          [Effect.send msg.chat_id (muteText msg.from_user (get_group_settings st.store).mute_duration) none]
      ∧ warningCount (handle_banned_word ctx st sends msg).1 msg.from_user.id = 0)
    ∧ ((warningCount st msg.from_user.id : Int) + 1 < (get_group_settings st.store).max_warnings →
      (handle_banned_word ctx st sends msg).2 =
        Effect.deleteMsg msg.chat_id msg.message_id ::
          Effect.dbAddWarning msg.from_user.id strUsedBannedWord ::
          (send_message { st with store := add_warning st.store msg.from_user.id strUsedBannedWord } (takeSend sends).1 msg.chat_id (warnText msg.from_user ((warningCount st msg.from_user.id : Int) + 1) (get_group_settings st.store).max_warnings) none).2
      ∧ sendsOf (handle_banned_word ctx st sends msg).2 =
          [Effect.send msg.chat_id (warnText msg.from_user ((warningCount st msg.from_user.id : Int) + 1) (get_group_settings st.store).max_warnings) none]
      ∧ warningCount (handle_banned_word ctx st sends msg).1 msg.from_user.id =
          warningCount st msg.from_user.id + 1)
    ∧ (warningCount st msg.from_user.id = 0 → ∀ N : Nat,
        ((N : Int) < (get_group_settings st.store).max_warnings →
          warningCount (violations ctx msg N st) msg.from_user.id = N)
        ∧ (0 < (get_group_settings st.store).max_warnings →
          (N : Int) = (get_group_settings st.store).max_warnings →
          warningCount (violations ctx msg N st) msg.from_user.id = 0)) := by
  refine ⟨?_, ?_, ?_⟩
  · intro h
    refine ⟨?_, ?_, ?_⟩
    · rw [hbw_mute_eq ctx st sends msg h]
    · rw [hbw_mute_eq ctx st sends msg h]
      simp [sendsOf_cons_nonsend, sendsOf_append, sendsOf_send_message, sendsOf_nil,
        Effect.isSend]
    · have hcnt := hbw_count ctx st sends msg
      rw [if_pos h] at hcnt
      exact hcnt
  · intro h
    refine ⟨?_, ?_, ?_⟩
    · rw [hbw_warn_eq ctx st sends msg h]
    · rw [hbw_warn_eq ctx st sends msg h]
      simp [sendsOf_cons_nonsend, sendsOf_send_message, Effect.isSend]
    · have hcnt := hbw_count ctx st sends msg
      rw [if_neg (not_le.mpr h)] at hcnt
      exact hcnt
  · intro h0 N
    exact ⟨fun hlt => violations_count_lt ctx msg st h0 N hlt,
      fun hpos hN => violations_count_reset ctx msg st h0 hpos N hN⟩

/-- A message carrying a banned word from user 42 in the support group. -/
def msgV : Message :=
  { text := "badword".data, chat_type := ChatType.supergroup, chat_id := -100, message_id := 77,
    from_user := userEx }

/-- A store whose settings row sets `max_warnings := 2`, with user 42
already holding one warning. -/
def storeMax2 : Store :=
  { emptyStore with
      group_settings :=
        [(1, { is_closed := false, max_warnings := 2, mute_duration := 60,
               auto_delete_minutes := 0 })]
      warnings := [(42, "w".data)] }

/-- Witness for C1: the second violation under `max_warnings = 2` mutes
and resets; a first violation under the default threshold 3 announces
"Warning 1/3"; and under the default settings the count after 2
consecutive violations is 2 while the third resets it to 0. -/
theorem claim_C1_witness :
    sendsOf (handle_banned_word ctxGroup ⟨storeMax2, []⟩ [some 8] msgV).2 =
      [Effect.send (-100) (muteText userEx 60) none]
    ∧ warningCount (handle_banned_word ctxGroup ⟨storeMax2, []⟩ [some 8] msgV).1 42 = 0
    ∧ sendsOf (handle_banned_word ctxGroup ⟨emptyStore, []⟩ [some 8] msgV).2 =
      [Effect.send (-100) (warnText userEx 1 3) none]
    ∧ warningCount (violations ctxGroup msgV 2 ⟨emptyStore, []⟩) 42 = 2
    ∧ warningCount (violations ctxGroup msgV 3 ⟨emptyStore, []⟩) 42 = 0 :=
  ⟨((claim_C1 ctxGroup ⟨storeMax2, []⟩ [some 8] msgV).1 (by decide)).2.1,
   ((claim_C1 ctxGroup ⟨storeMax2, []⟩ [some 8] msgV).1 (by decide)).2.2,
   ((claim_C1 ctxGroup ⟨emptyStore, []⟩ [some 8] msgV).2.1 (by decide)).2.1,
   ((claim_C1 ctxGroup ⟨emptyStore, []⟩ [some 8] msgV).2.2 rfl 2).1 (by decide),
   ((claim_C1 ctxGroup ⟨emptyStore, []⟩ [some 8] msgV).2.2 rfl 3).2 (by decide) (by decide)⟩

end SupportBot
